import Mathlib

/-!
Verification of the Dispatcharr VOD proxy connection/session manager.

Shallow embedding of `apps/proxy/vod_proxy/multi_worker_connection_manager.py`,
`apps/proxy/vod_proxy/connection_manager.py` and `apps/proxy/vod_proxy/views.py`.
Pure fragments of the Python code are translated to executable Lean functions;
Redis-held counters and connection hashes become explicit state values, and the
Redis operations a code path performs are recorded as explicit operation lists.
-/

namespace VODProxy

/-! ## Python-style primitives -/

/-- Python truthiness of an optional string (`None` and `""` are falsy). -/
def truthy : Option String → Bool
  | none => false
  | some s => !s.isEmpty

/-- Accumulate a decimal value from a list of digit characters; `none` on any
non-digit, mirroring the `ValueError` raised by Python `int()`. -/
def parseDigitsAux : List Char → Nat → Option Nat
  | [], acc => some acc
  | c :: cs, acc =>
    if c.isDigit then parseDigitsAux cs (acc * 10 + (c.toNat - 48)) else none

/-- Python `int(s)` on the strings this code feeds it: optional leading minus
sign followed by one or more decimal digits; `none` models `ValueError`. -/
def pyInt? (s : String) : Option Int :=
  match s.data with
  | [] => none
  | '-' :: rest =>
    match rest with
    | [] => none
    | _ => (parseDigitsAux rest 0).map (fun n => -(n : Int))
  | cs => (parseDigitsAux cs 0).map (fun n => (n : Int))

/-- Replace every occurrence of `pat` in the character list, as Python
`str.replace` does; `fuel` bounds the recursion (list length suffices). -/
def replaceAllAux (pat repl : List Char) : Nat → List Char → List Char
  | 0, l => l
  | _ + 1, [] => []
  | fuel + 1, c :: rest =>
    if pat.isPrefixOf (c :: rest) then
      repl ++ replaceAllAux pat repl fuel ((c :: rest).drop pat.length)
    else
      c :: replaceAllAux pat repl fuel rest

/-- Python `s.replace(pat, repl)` for a non-empty pattern. -/
def pyReplace (s pat repl : String) : String :=
  if pat.isEmpty then s
  else String.mk (replaceAllAux pat.data repl.data s.data.length s.data)

/-- Split a character list at the first occurrence of `c`, as Python
`s.split(c, 1)`; `none` when `c` does not occur (`c not in s`). -/
def splitFirst (c : Char) : List Char → Option (List Char × List Char)
  | [] => none
  | x :: xs =>
    if x = c then some ([], xs)
    else (splitFirst c xs).map (fun p => (x :: p.1, p.2))

/-! ## Range Negotiator

`_validate_range_header` appears with identical logic in
`RedisBackedVODConnection` (multi_worker_connection_manager.py lines 240-276)
and `PersistentVODConnection` (connection_manager.py lines 109-151).
The numeric normalization stage is factored out so that the general
clamping/satisfiability behaviour can be stated over parsed values. -/

/-- End-byte clamping and the final start/end comparison of
`_validate_range_header` (source lines 261-272): a missing or overflowing end
byte is clamped to `contentLength - 1`; `none` when `start > end` afterwards. -/
def normalizeRange (contentLength startByte : Int) (endByte? : Option Int) :
    Option (Int × Int) :=
  let endByte :=
    match endByte? with
    | some e => if contentLength ≤ e then contentLength - 1 else e
    | none => contentLength - 1
  if endByte < startByte then none else some (startByte, endByte)

/-- The numeric decision of `_validate_range_header` once both range fields
are parsed: a present start byte at or past `contentLength` is not
satisfiable (source lines 253-256), otherwise `normalizeRange` applies. -/
def validateParsedRange (contentLength : Int) (startByte? endByte? : Option Int) :
    Option (Int × Int) :=
  match startByte? with
  | some sb =>
    if contentLength ≤ sb then none else normalizeRange contentLength sb endByte?
  | none => normalizeRange contentLength 0 endByte?

/-- Parse one side of the `<start>-<end>` pair: an empty field is an absent
value; a non-empty field must parse as `int` (outer `none` = `ValueError`). -/
def parseRangeField (cs : List Char) : Option (Option Int) :=
  match cs with
  | [] => some none
  | _ => (pyInt? (String.mk cs)).map some

/-- `_validate_range_header(range_header, content_length)`.
Returns `none` for "not satisfiable"; `some h` is the header to forward
upstream (returned unchanged when it is not a parseable `bytes=` range). -/
def validateRangeHeader (rangeHeader : String) (contentLength : Int) :
    Option String :=
  if !("bytes=".data.isPrefixOf rangeHeader.data) then some rangeHeader
  else
    let rangePart := pyReplace rangeHeader "bytes=" ""
    match splitFirst '-' rangePart.data with
    | none => some rangeHeader
    | some (startStr, endStr) =>
      match parseRangeField startStr with
      | none => some rangeHeader
      | some startByte? =>
        let startBad :=
          match startByte? with
          | some sb => decide (contentLength ≤ sb)
          | none => false
        if startBad then none
        else
          match parseRangeField endStr with
          | none => some rangeHeader
          | some endByte? =>
            (normalizeRange contentLength (startByte?.getD 0) endByte?).map
              (fun p => "bytes=" ++ toString p.1 ++ "-" ++ toString p.2)

/-! ## Connection state (`SerializableConnectionState`, multi_worker lines 23-70)

The Redis hash `vod_persistent_connection:<session_id>`; string-valued fields
keep their stored representation (`content_length` is a decimal string or
absent, exactly as `response.headers.get('content-length')` delivers it). -/

structure ConnectionState where
  session_id : String
  stream_url : String
  headers : List (String × String)
  content_length : Option String
  content_type : String
  final_url : Option String
  m3u_profile_id : Option Int
  last_activity : Nat
  request_count : Nat
  active_streams : Int
deriving DecidableEq

/-- The constructor defaults of `SerializableConnectionState.__init__`
(multi_worker lines 26-38), as used by `create_connection` (line 161). -/
def ConnectionState.new (sessionId streamUrl : String)
    (headers : List (String × String)) (profileId : Option Int) (now : Nat) :
    ConnectionState :=
  { session_id := sessionId
    stream_url := streamUrl
    headers := headers
    content_length := none
    content_type := "video/mp4"
    final_url := none
    m3u_profile_id := profileId
    last_activity := now
    request_count := 0
    active_streams := 0 }

/-! ## `RedisBackedVODConnection.get_stream` (multi_worker lines 171-238)

The single upstream HTTP request the method issues, and the state update it
saves back to Redis, are modelled separately: `getStreamRequest` is what goes
on the wire, `getStreamUpdate` is the new `ConnectionState` given the
upstream response observed. -/

/-- The request `get_stream` hands to `requests.Session.get`
(multi_worker lines 202-215). -/
structure HttpRequest where
  url : String
  range : Option String
  allow_redirects : Bool
deriving DecidableEq

/-- Outcome of the request-preparation phase of `get_stream`:
either one upstream request is issued, or the validated range was not
satisfiable and `get_stream` returns `None` (line 196), or
`int(state.content_length)` raised. -/
inductive GetStreamPlan where
  | notSatisfiable
  | fetch (req : HttpRequest)
  | intError
deriving DecidableEq

/-- Request preparation of `get_stream` (multi_worker lines 188-215): validate
a client range against a known content length, then target `final_url` when
it is set — with redirect-following disabled — and `stream_url` otherwise. -/
def getStreamRequest (state : ConnectionState) (rangeHeader : Option String) :
    GetStreamPlan :=
  let mkReq (range : Option String) : HttpRequest :=
    { url := if truthy state.final_url then state.final_url.getD "" else state.stream_url
      range := range
      allow_redirects := !truthy state.final_url }
  match rangeHeader with
  | none => .fetch (mkReq none)
  | some rh =>
    if truthy state.content_length then
      match pyInt? (state.content_length.getD "") with
      | none => .intError
      | some len =>
        match validateRangeHeader rh len with
        | none => .notSatisfiable
        | some validated => .fetch (mkReq (some validated))
    else .fetch (mkReq (some rh))

/-- The upstream response fields `get_stream` reads (multi_worker 219-227). -/
structure UpstreamResponse where
  url : String
  content_length : Option String
  content_type : Option String
deriving DecidableEq

/-- The state `get_stream` saves after a successful upstream request
(multi_worker lines 179-230): activity and request count always advance;
only on the first request (`request_count == 1` after the increment) are the
still-unset `content_length`, `content_type` and `final_url` filled in from
the response. -/
def getStreamUpdate (state : ConnectionState) (resp : UpstreamResponse)
    (now : Nat) : ConnectionState :=
  let s := { state with last_activity := now, request_count := state.request_count + 1 }
  if s.request_count = 1 then
    { s with
      content_length :=
        if truthy s.content_length then s.content_length else resp.content_length
      content_type :=
        if !s.content_type.isEmpty then s.content_type
        else resp.content_type.getD "video/mp4"
      final_url := if truthy s.final_url then s.final_url else some resp.url }
  else s

/-! ## Per-session active-stream counter (multi_worker lines 278-310) -/

/-- `increment_active_streams`: unconditional `+= 1` on the stored state. -/
def incrementActiveStreams (state : ConnectionState) (now : Nat) : ConnectionState :=
  { state with active_streams := state.active_streams + 1, last_activity := now }

/-- `decrement_active_streams`: decrements only when the stored count is
strictly positive; otherwise the state is left untouched (nothing saved). -/
def decrementActiveStreams (state : ConnectionState) (now : Nat) : ConnectionState :=
  if state.active_streams > 0 then
    { state with active_streams := state.active_streams - 1, last_activity := now }
  else state

/-- A stream-counter call with the wall-clock instant it happens at. -/
inductive StreamOp where
  | inc (now : Nat)
  | dec (now : Nat)
deriving DecidableEq

def applyStreamOp (state : ConnectionState) : StreamOp → ConnectionState
  | .inc now => incrementActiveStreams state now
  | .dec now => decrementActiveStreams state now

def applyStreamOps (state : ConnectionState) : List StreamOp → ConnectionState
  | [] => state
  | op :: ops => applyStreamOps (applyStreamOp state op) ops

/-! ## Profile Connection Limiter (multi_worker lines 386-431, 451-489)

The shared counter `profile_connections:<profile_id>` is an integer in Redis;
each function is modelled as its effect on that integer together with the
list of counter operations the Python code actually performs on Redis. -/

inductive RedisOp where
  | get
  | incr
  | decr
deriving DecidableEq

/-- `_check_profile_limits` (multi_worker lines 390-404): `max_streams == 0`
admits unconditionally without touching the counter; otherwise the counter is
read and compared with `current_connections < max_streams`. -/
def checkProfileLimits (maxStreams count : Int) : Bool × List RedisOp :=
  if maxStreams = 0 then (true, [])
  else (decide (count < maxStreams), [RedisOp.get])

/-- `_increment_profile_connections` (lines 406-415): unconditional `INCR`. -/
def incrementProfileConnections (count : Int) : Int × List RedisOp :=
  (count + 1, [RedisOp.incr])

/-- `_decrement_profile_connections` (lines 417-431): read the counter and
`DECR` only when it is strictly positive; at 0 the call is logged and
ignored. -/
def decrementProfileConnections (count : Int) : Int × List RedisOp :=
  if count > 0 then (count - 1, [RedisOp.get, RedisOp.decr])
  else (count, [RedisOp.get])

/-- The new-session slot-acquisition path of `stream_content_with_session`
(multi_worker lines 451-489): `_check_profile_limits` first; on refusal the
429 response is returned with the counter untouched; on admission the
connection is created and `_increment_profile_connections` runs.
Result: (admitted?, counter value afterwards, counter operations issued). -/
def acquireSlot (maxStreams count : Int) : Bool × Int × List RedisOp :=
  let check := checkProfileLimits maxStreams count
  if check.1 then
    let incr := incrementProfileConnections count
    (true, incr.1, check.2 ++ incr.2)
  else
    (false, count, check.2)

/-- Iterated release calls (`_decrement_profile_connections` n times). -/
def releaseMany (count : Int) : Nat → Int
  | 0 => count
  | n + 1 => releaseMany (decrementProfileConnections count).1 n

/-! ## Query parameters

`parse_qs` produces a dict mapping each key to its list of values, and
`dict(request.GET)` does the same for a Django `QueryDict`; both are modelled
as ordered association lists. `dictSet` is Python dict assignment: an
existing key keeps its position with a replaced value, a new key is appended
(insertion order, as `urlencode(query_params, doseq=True)` then serializes). -/

abbrev QueryParams := List (String × List String)

/-- Python `d[k] = v` on an insertion-ordered dict. -/
def dictSet (q : QueryParams) (k : String) (v : List String) : QueryParams :=
  if (q.lookup k).isSome then
    q.map (fun p => if p.1 = k then (k, v) else p)
  else q ++ [(k, v)]

/-- `QueryDict.get(k)` as used for `session_id` (views.py line 59): the last
value stored under the key, `None` when absent. -/
def qdGet (q : QueryParams) (k : String) : Option String :=
  match q.lookup k with
  | none => none
  | some vs => vs.getLast?

/-! ## Timeshift URL Rewriter
(`_apply_timeshift_parameters`, multi_worker lines 641-713)

The query-parameter stage of the rewrite: each supplied truthy value is
written into its alias keys by plain dict assignment. Offsets go through
`int(offset)`; a `ValueError` skips only the offset aliases. When none of
the three parameters is truthy the URL is returned unmodified (line 643). -/

def applyTimeshiftQuery (q : QueryParams)
    (utcStart utcEnd offset : Option String) : QueryParams :=
  if !(truthy utcStart || truthy utcEnd || truthy offset) then q
  else
    let q1 :=
      if truthy utcStart then
        dictSet (dictSet q "utc_start" [utcStart.getD ""]) "start" [utcStart.getD ""]
      else q
    let q2 :=
      if truthy utcEnd then
        dictSet (dictSet q1 "utc_end" [utcEnd.getD ""]) "end" [utcEnd.getD ""]
      else q1
    if truthy offset then
      match pyInt? (offset.getD "") with
      | some n =>
        dictSet (dictSet (dictSet q2 "offset" [toString n]) "seek" [toString n])
          "t" [toString n]
      | none => q2
    else q2

/-! ## Session minting redirect (`VODStreamView.get`, views.py lines 111-128)

When the request carries no truthy `session_id` query parameter, the view
mints one and answers 302 with a Location built from the same path and
`dict(request.GET)` plus the minted `session_id`, serialized by
`urlencode(..., doseq=True)`. The Location is kept as path plus structured
parameters. -/

structure RedirectResponse where
  status : Nat
  locationPath : String
  locationParams : QueryParams
deriving DecidableEq

/-- The session-minting branch: `some` redirect when `session_id` is absent
(or empty, which Python treats as falsy), `none` when the request proceeds. -/
def sessionRedirect (path : String) (getParams : QueryParams)
    (minted : String) : Option RedirectResponse :=
  if truthy (qdGet getParams "session_id") then none
  else
    some { status := 302
           locationPath := path
           locationParams := dictSet getParams "session_id" [minted] }

/-! ## 416 responses

The two "range not satisfiable" responses the managers build when
`get_stream` reports an unsatisfiable range. -/

structure HttpResponseModel where
  status : Nat
  headers : List (String × String)
  body : String
deriving DecidableEq

/-- multi_worker_connection_manager.py lines 529-531: plain
`HttpResponse("Requested Range Not Satisfiable", status=416)`. -/
def mwRangeNotSatisfiableResponse : HttpResponseModel :=
  { status := 416, headers := [], body := "Requested Range Not Satisfiable" }

/-- connection_manager.py lines 880-888: 416 carrying
`Content-Range: bytes */<content_length>` (or `bytes */*` when the
connection's length is not yet known). -/
def cmRangeNotSatisfiableResponse (contentLength : Option String) :
    HttpResponseModel :=
  { status := 416
    headers := [("Content-Range",
      if truthy contentLength then "bytes */" ++ contentLength.getD ""
      else "bytes */*")]
    body := "Requested Range Not Satisfiable" }

/-! ## Concrete instances used to exercise the definitions -/

/-- A session directly after `create_connection`: the constructor state with
no resolved final URL and no known length. -/
def freshState : ConnectionState :=
  ConnectionState.new "sess1" "http://upstream/video.mp4" [] (some 7) 100

/-- A session whose first fetch already resolved the final URL and length. -/
def resolvedState : ConnectionState :=
  { ConnectionState.new "s1" "http://orig/a" [] (some 1) 5 with
    final_url := some "http://final/a", request_count := 1,
    content_length := some "1000" }

/-- An upstream response as observed by the first fetch. -/
def firstResponse : UpstreamResponse :=
  { url := "http://final/a", content_length := some "1000",
    content_type := some "video/mp4" }

/-! ## Helper lemmas -/

theorem lookup_replaceKey_self (q : QueryParams) (k : String) (v : List String)
    (h : (q.lookup k).isSome) :
    (q.map (fun p => if p.1 = k then (k, v) else p)).lookup k = some v := by
  induction q with
  | nil => simp [List.lookup] at h
  | cons p q ih =>
    obtain ⟨a, b⟩ := p
    by_cases hk : a = k
    · subst hk
      simp [List.lookup_cons]
    · have hb : (k == a) = false := beq_eq_false_iff_ne.mpr (Ne.symm hk)
      rw [List.lookup_cons, hb] at h
      simp only [List.map_cons, hk, if_false, List.lookup_cons, hb]
      exact ih h

theorem lookup_replaceKey_ne (q : QueryParams) (k k' : String) (v : List String)
    (h : k' ≠ k) :
    (q.map (fun p => if p.1 = k then (k, v) else p)).lookup k' = q.lookup k' := by
  induction q with
  | nil => simp
  | cons p q ih =>
    obtain ⟨a, b⟩ := p
    by_cases hk : a = k
    · subst hk
      have hb : (k' == a) = false := beq_eq_false_iff_ne.mpr h
      simp only [List.map_cons, eq_self_iff_true, if_true, List.lookup_cons, hb]
      exact ih
    · simp only [List.map_cons, hk, if_false, List.lookup_cons]
      cases hx : (k' == a) with
      | true => rfl
      | false => exact ih

theorem lookup_appendOne_self (q : QueryParams) (k : String) (v : List String)
    (h : q.lookup k = none) : (q ++ [(k, v)]).lookup k = some v := by
  induction q with
  | nil => simp [List.lookup_cons]
  | cons p q ih =>
    obtain ⟨a, b⟩ := p
    rw [List.lookup_cons] at h
    cases hx : (k == a) with
    | true => rw [hx] at h; simp at h
    | false =>
      rw [hx] at h
      rw [List.cons_append, List.lookup_cons, hx]
      exact ih h

theorem lookup_appendOne_ne (q : QueryParams) (k k' : String) (v : List String)
    (h : k' ≠ k) : (q ++ [(k, v)]).lookup k' = q.lookup k' := by
  induction q with
  | nil =>
    have hx : (k' == k) = false := beq_eq_false_iff_ne.mpr h
    simp [List.lookup_cons, hx, List.lookup]
  | cons p q ih =>
    obtain ⟨a, b⟩ := p
    rw [List.cons_append, List.lookup_cons, List.lookup_cons]
    cases hx : (k' == a) with
    | true => rfl
    | false => exact ih

theorem lookup_dictSet_self (q : QueryParams) (k : String) (v : List String) :
    (dictSet q k v).lookup k = some v := by
  unfold dictSet
  by_cases h : (q.lookup k).isSome
  · rw [if_pos h]; exact lookup_replaceKey_self q k v h
  · rw [if_neg h]
    refine lookup_appendOne_self q k v ?_
    cases hq : q.lookup k with
    | none => rfl
    | some _ => rw [hq] at h; simp at h

theorem lookup_dictSet_ne (q : QueryParams) (k k' : String) (v : List String)
    (h : k' ≠ k) : (dictSet q k v).lookup k' = q.lookup k' := by
  unfold dictSet
  by_cases hs : (q.lookup k).isSome
  · rw [if_pos hs]; exact lookup_replaceKey_ne q k k' v h
  · rw [if_neg hs]; exact lookup_appendOne_ne q k k' v h

theorem truthy_some_of_ne (u : String) (h : u ≠ "") : truthy (some u) = true := by
  have hf : u.isEmpty = false := by
    cases hc : u.isEmpty
    · rfl
    · exact absurd ((String.isEmpty_iff u).mp hc) h
  simp [truthy, hf]

/-- Every request `get_stream` actually issues targets `final_url` — with
redirect-following off — exactly when `final_url` is truthy, and the
original `stream_url` with redirects on otherwise. -/
theorem getStreamRequest_fetch_shape (s : ConnectionState) (rh : Option String)
    (req : HttpRequest) (h : getStreamRequest s rh = GetStreamPlan.fetch req) :
    req.url = (if truthy s.final_url then s.final_url.getD "" else s.stream_url) ∧
    req.allow_redirects = !truthy s.final_url := by
  unfold getStreamRequest at h
  cases rh with
  | none => cases h; exact ⟨rfl, rfl⟩
  | some rhdr =>
    dsimp only at h
    split at h
    · split at h
      · cases h
      · split at h
        · cases h
        · cases h; exact ⟨rfl, rfl⟩
    · cases h; exact ⟨rfl, rfl⟩

theorem applyStreamOp_nonneg (s : ConnectionState) (op : StreamOp)
    (h : 0 ≤ s.active_streams) : 0 ≤ (applyStreamOp s op).active_streams := by
  cases op with
  | inc now => simp [applyStreamOp, incrementActiveStreams]; omega
  | dec now =>
    simp only [applyStreamOp, decrementActiveStreams]
    by_cases hpos : s.active_streams > 0 <;> simp [hpos] <;> omega

/-! ## Claim theorems -/

/-- C1, counterexample: when profile 1 is at its limit (`max_streams = 1`,
counter at 1), the refused acquisition performs only a counter read — it
never executes the increment-then-check-then-decrement-back sequence the
claim describes: no `INCR` and no rollback `DECR` appear in the operations
issued. -/
theorem c1_increment_then_rollback_counterexample :
    (acquireSlot 1 1).1 = false ∧
    (acquireSlot 1 1).2.2 = [RedisOp.get] ∧
    RedisOp.incr ∉ (acquireSlot 1 1).2.2 ∧
    RedisOp.decr ∉ (acquireSlot 1 1).2.2 := by decide

/-- C1 (amended): for `max_streams = N > 0`, acquiring a slot for a new
session reads the shared counter and admits the session exactly when the
read value is below N, incrementing the counter only after admission; no
rollback decrement is ever issued, and under sequential operation the
counter never exceeds N. -/
theorem c1_acquire_check_then_increment (N c : Int) (hN : 0 < N) :
    ((acquireSlot N c).1 = decide (c < N)) ∧
    (c < N → (acquireSlot N c).2.1 = c + 1 ∧ (acquireSlot N c).2.1 ≤ N) ∧
    (N ≤ c → (acquireSlot N c).2.1 = c) ∧
    RedisOp.decr ∉ (acquireSlot N c).2.2 ∧
    ((acquireSlot N c).2.2 = [RedisOp.get] ∨
      (acquireSlot N c).2.2 = [RedisOp.get, RedisOp.incr]) := by
  have hne : ¬ (N = 0) := by omega
  unfold acquireSlot checkProfileLimits incrementProfileConnections
  by_cases h : c < N
  · simp [hne, h] <;> omega
  · simp [hne, h] <;> omega

theorem c1_acquire_check_then_increment_witness :
    (0 : Int) < 2 ∧
    (((acquireSlot 2 1).1 = decide ((1 : Int) < 2)) ∧
    ((1 : Int) < 2 → (acquireSlot 2 1).2.1 = 1 + 1 ∧ (acquireSlot 2 1).2.1 ≤ 2) ∧
    ((2 : Int) ≤ 1 → (acquireSlot 2 1).2.1 = 1) ∧
    RedisOp.decr ∉ (acquireSlot 2 1).2.2 ∧
    ((acquireSlot 2 1).2.2 = [RedisOp.get] ∨
      (acquireSlot 2 1).2.2 = [RedisOp.get, RedisOp.incr])) :=
  ⟨by decide, c1_acquire_check_then_increment 2 1 (by decide)⟩

/-- C2: against a known content length L > 0, a present start at or past L
is not satisfiable; a missing or overflowing end byte is clamped to L - 1;
start past the clamped end is not satisfiable; otherwise the normalized
range is returned — and on the spec's examples with L = 1000,
`bytes=500-` normalizes to `bytes=500-999`, `bytes=2000-3000` is not
satisfiable, and `bytes=900-2000` normalizes to `bytes=900-999`. -/
theorem c2_range_negotiation (L s e : Int) (hL : 0 < L) :
    (L ≤ s → validateParsedRange L (some s) (some e) = none ∧
             validateParsedRange L (some s) none = none) ∧
    (validateParsedRange L (some s) none =
      if L - 1 < s then none else some (s, L - 1)) ∧
    (L ≤ e → validateParsedRange L (some s) (some e) =
      if L - 1 < s then none else some (s, L - 1)) ∧
    (e < L → validateParsedRange L (some s) (some e) =
      if e < s then none else some (s, e)) ∧
    validateRangeHeader "bytes=500-" 1000 = some "bytes=500-999" ∧
    validateRangeHeader "bytes=2000-3000" 1000 = none ∧
    validateRangeHeader "bytes=900-2000" 1000 = some "bytes=900-999" := by
  refine ⟨?_, ?_, ?_, ?_, by decide, by decide, by decide⟩
  · intro h
    unfold validateParsedRange
    constructor <;> simp [h]
  · unfold validateParsedRange normalizeRange
    split_ifs <;> simp_all <;> omega
  · intro h
    unfold validateParsedRange normalizeRange
    split_ifs <;> simp_all <;> omega
  · intro h
    unfold validateParsedRange normalizeRange
    split_ifs <;> simp_all <;> omega

theorem c2_range_negotiation_witness :
    (0 : Int) < 1000 ∧
    (((1000 : Int) ≤ 500 → validateParsedRange 1000 (some 500) (some 2000) = none ∧
             validateParsedRange 1000 (some 500) none = none) ∧
    (validateParsedRange 1000 (some 500) none =
      if (1000 : Int) - 1 < 500 then none else some (500, 1000 - 1)) ∧
    ((1000 : Int) ≤ 2000 → validateParsedRange 1000 (some 500) (some 2000) =
      if (1000 : Int) - 1 < 500 then none else some (500, 1000 - 1)) ∧
    ((2000 : Int) < 1000 → validateParsedRange 1000 (some 500) (some 2000) =
      if (2000 : Int) < 500 then none else some (500, 2000)) ∧
    validateRangeHeader "bytes=500-" 1000 = some "bytes=500-999" ∧
    validateRangeHeader "bytes=2000-3000" 1000 = none ∧
    validateRangeHeader "bytes=900-2000" 1000 = some "bytes=900-999") :=
  ⟨by decide, c2_range_negotiation 1000 500 2000 (by decide)⟩

/-- C3: once a session's `final_url` is set (to a non-empty URL), a further
`get_stream` never changes it; every request the session issues targets
that stored `final_url` with redirect-following disabled; and in general the
saved state's `final_url` can differ from the stored one only on the very
first request of a session whose `final_url` was still unset. -/
theorem c3_final_url_stable (s : ConnectionState) (resp : UpstreamResponse)
    (now : Nat) (u : String) (hu : s.final_url = some u) (hne : u ≠ "") :
    (getStreamUpdate s resp now).final_url = some u ∧
    (∀ rh req, getStreamRequest s rh = GetStreamPlan.fetch req →
        req.url = u ∧ req.allow_redirects = false) ∧
    (∀ (t : ConnectionState) (r : UpstreamResponse) (n : Nat),
        (getStreamUpdate t r n).final_url ≠ t.final_url →
        t.request_count = 0 ∧ truthy t.final_url = false) := by
  have htru : truthy (some u) = true := truthy_some_of_ne u hne
  have htr : truthy s.final_url = true := by rw [hu]; exact htru
  refine ⟨?_, ?_, ?_⟩
  · unfold getStreamUpdate
    by_cases h1 : s.request_count + 1 = 1 <;> simp [h1, htr, htru, hu]
  · intro rh req hreq
    obtain ⟨hurl, hred⟩ := getStreamRequest_fetch_shape s rh req hreq
    rw [htr] at hred
    rw [if_pos htr, hu] at hurl
    exact ⟨hurl, by simpa using hred⟩
  · intro t r n hne2
    unfold getStreamUpdate at hne2
    by_cases h1 : t.request_count + 1 = 1
    · by_cases h2 : truthy t.final_url = true
      · simp [h1, h2] at hne2
      · exact ⟨by omega, by simpa using h2⟩
    · simp [h1] at hne2

theorem c3_final_url_stable_witness :
    resolvedState.final_url = some "http://final/a" ∧ "http://final/a" ≠ "" ∧
    ((getStreamUpdate resolvedState firstResponse 50).final_url = some "http://final/a" ∧
    (∀ rh req, getStreamRequest resolvedState rh = GetStreamPlan.fetch req →
        req.url = "http://final/a" ∧ req.allow_redirects = false) ∧
    (∀ (t : ConnectionState) (r : UpstreamResponse) (n : Nat),
        (getStreamUpdate t r n).final_url ≠ t.final_url →
        t.request_count = 0 ∧ truthy t.final_url = false)) :=
  ⟨rfl, by decide,
    c3_final_url_stable resolvedState firstResponse 50 "http://final/a" rfl (by decide)⟩

/-- C4: releasing a profile slot decrements the shared counter by one when
it is strictly positive and leaves it at 0 otherwise, and any number of
(possibly redundant) release calls starting from a non-negative counter
never drives it below 0. -/
theorem c4_release_floored (c : Int) (n : Nat) (hc : 0 ≤ c) :
    (0 < c → (decrementProfileConnections c).1 = c - 1) ∧
    (c = 0 → (decrementProfileConnections c).1 = 0) ∧
    0 ≤ (decrementProfileConnections c).1 ∧
    0 ≤ releaseMany c n := by
  refine ⟨?_, ?_, ?_, ?_⟩
  · intro h; unfold decrementProfileConnections; simp [h]
  · intro h; subst h; decide
  · unfold decrementProfileConnections
    by_cases h : c > 0 <;> simp [h] <;> omega
  · induction n generalizing c with
    | zero => simpa [releaseMany] using hc
    | succ m ih =>
      unfold releaseMany
      apply ih
      unfold decrementProfileConnections
      by_cases h : c > 0 <;> simp [h] <;> omega

theorem c4_release_floored_witness :
    (0 : Int) ≤ 1 ∧
    ((0 < (1 : Int) → (decrementProfileConnections 1).1 = 1 - 1) ∧
     ((1 : Int) = 0 → (decrementProfileConnections 1).1 = 0) ∧
     0 ≤ (decrementProfileConnections 1).1 ∧
     0 ≤ releaseMany 1 3) :=
  ⟨by decide, c4_release_floored 1 3 (by decide)⟩

/-- C5, counterexample: the multi-worker manager's "Requested Range Not
Satisfiable" response has status 416 but carries no `Content-Range` header
at all, contradicting the claim that every such response carries
`Content-Range: bytes */<len>`. -/
theorem c5_multiworker_416_counterexample :
    mwRangeNotSatisfiableResponse.status = 416 ∧
    mwRangeNotSatisfiableResponse.headers.lookup "Content-Range" = none := by decide

/-- C5 (amended): an unsatisfiable range yields status 416 in both
managers; the single-worker `VODConnectionManager` 416 carries
`Content-Range: bytes */<len>` for a known length, while the multi-worker
manager's 416 carries no `Content-Range` header. -/
theorem c5_416_content_range (len : String) (hlen : len ≠ "") :
    (cmRangeNotSatisfiableResponse (some len)).status = 416 ∧
    (cmRangeNotSatisfiableResponse (some len)).headers.lookup "Content-Range" =
      some ("bytes */" ++ len) ∧
    mwRangeNotSatisfiableResponse.status = 416 ∧
    mwRangeNotSatisfiableResponse.headers.lookup "Content-Range" = none := by
  have htr : truthy (some len) = true := truthy_some_of_ne len hlen
  refine ⟨rfl, ?_, rfl, by decide⟩
  simp [cmRangeNotSatisfiableResponse, htr, List.lookup_cons]

theorem c5_416_content_range_witness :
    "1000" ≠ "" ∧
    ((cmRangeNotSatisfiableResponse (some "1000")).status = 416 ∧
     (cmRangeNotSatisfiableResponse (some "1000")).headers.lookup "Content-Range" =
       some ("bytes */" ++ "1000") ∧
     mwRangeNotSatisfiableResponse.status = 416 ∧
     mwRangeNotSatisfiableResponse.headers.lookup "Content-Range" = none) :=
  ⟨by decide, c5_416_content_range "1000" (by decide)⟩

/-- C6, counterexample: with `max_streams = 0` and the counter at 5, slot
acquisition for a new session succeeds but leaves the counter at 6, not 5 —
the counter is not left unchanged. -/
theorem c6_unlimited_counter_counterexample :
    (acquireSlot 0 5).1 = true ∧ (acquireSlot 0 5).2.1 ≠ 5 := by decide

/-- C6 (amended): with `max_streams = 0` the limit check admits
unconditionally and itself touches no counter, but the acquisition path
still increments the profile's connection counter after creating the
connection. -/
theorem c6_unlimited_acquire (c : Int) :
    (acquireSlot 0 c).1 = true ∧
    (checkProfileLimits 0 c).2 = [] ∧
    (acquireSlot 0 c).2.1 = c + 1 ∧
    (acquireSlot 0 c).2.2 = [RedisOp.incr] := by
  simp [acquireSlot, checkProfileLimits, incrementProfileConnections]

/-- C7, counterexample: on a fresh session with unknown `content_length`
and no client range, `get_stream` issues exactly one upstream request,
carrying no `Range` header at all — no `bytes=0-1024` probe request is
sent first. -/
theorem c7_probe_counterexample :
    getStreamRequest freshState none =
      GetStreamPlan.fetch
        { url := "http://upstream/video.mp4", range := none,
          allow_redirects := true } := by decide

/-- C7 (amended): no length probe exists; when `content_length` is unknown
and no client range was supplied, the single upstream request is issued
directly with no `Range` header (following redirects while `final_url` is
unset), and `content_length` is recovered from the first response's
`Content-Length` header. -/
theorem c7_direct_fetch (s : ConnectionState) (resp : UpstreamResponse) (now : Nat)
    (hlen : truthy s.content_length = false)
    (hfin : truthy s.final_url = false)
    (hfirst : s.request_count = 0) :
    getStreamRequest s none =
      GetStreamPlan.fetch
        { url := s.stream_url, range := none, allow_redirects := true } ∧
    (getStreamUpdate s resp now).content_length = resp.content_length := by
  constructor
  · unfold getStreamRequest
    simp [hfin]
  · unfold getStreamUpdate
    simp [hfirst, hlen]

theorem c7_direct_fetch_witness :
    truthy freshState.content_length = false ∧
    truthy freshState.final_url = false ∧
    freshState.request_count = 0 ∧
    (getStreamRequest freshState none =
      GetStreamPlan.fetch
        { url := freshState.stream_url, range := none, allow_redirects := true } ∧
    (getStreamUpdate freshState firstResponse 101).content_length =
      firstResponse.content_length) :=
  ⟨by decide, by decide, rfl,
    c7_direct_fetch freshState firstResponse 101 (by decide) (by decide) rfl⟩

/-- C8: a GET whose query parameters lack `session_id` is answered with a
302 whose Location keeps the same path, appends the freshly minted
`session_id`, and preserves every original query parameter and its
values. -/
theorem c8_session_redirect (path : String) (q : QueryParams) (minted : String)
    (habsent : q.lookup "session_id" = none) :
    sessionRedirect path q minted =
      some { status := 302, locationPath := path,
             locationParams := q ++ [("session_id", [minted])] } ∧
    (q ++ [("session_id", [minted])]).lookup "session_id" = some [minted] ∧
    (∀ k, k ≠ "session_id" →
      (q ++ [("session_id", [minted])]).lookup k = q.lookup k) := by
  refine ⟨?_, lookup_appendOne_self q _ _ habsent,
    fun k hk => lookup_appendOne_ne q _ k _ hk⟩
  unfold sessionRedirect qdGet dictSet
  rw [habsent]
  simp [truthy]

theorem c8_session_redirect_witness :
    ([("a", ["1"]), ("b", ["2", "3"])] : QueryParams).lookup "session_id" = none ∧
    (sessionRedirect "/proxy/vod/movie/u1/" [("a", ["1"]), ("b", ["2", "3"])] "vod_17_42" =
      some { status := 302, locationPath := "/proxy/vod/movie/u1/",
             locationParams :=
               [("a", ["1"]), ("b", ["2", "3"])] ++ [("session_id", ["vod_17_42"])] } ∧
    (([("a", ["1"]), ("b", ["2", "3"])] : QueryParams) ++
        [("session_id", ["vod_17_42"])]).lookup "session_id" = some ["vod_17_42"] ∧
    (∀ k, k ≠ "session_id" →
      (([("a", ["1"]), ("b", ["2", "3"])] : QueryParams) ++
          [("session_id", ["vod_17_42"])]).lookup k =
        ([("a", ["1"]), ("b", ["2", "3"])] : QueryParams).lookup k)) :=
  ⟨by decide, c8_session_redirect "/proxy/vod/movie/u1/"
    [("a", ["1"]), ("b", ["2", "3"])] "vod_17_42" (by decide)⟩

/-- C9: each supplied timeshift value is mirrored into every alias query
parameter of the rewritten URL: `utc_start` into both `utc_start` and
`start`, `utc_end` into both `utc_end` and `end`, and an integer-parsing
offset into `offset`, `seek` and `t`. -/
theorem c9_timeshift_aliases (q : QueryParams) (us ue off : String) (n : Int)
    (hus : us ≠ "") (hue : ue ≠ "") (hoff : off ≠ "")
    (hn : pyInt? off = some n) :
    (applyTimeshiftQuery q (some us) (some ue) (some off)).lookup "utc_start" = some [us] ∧
    (applyTimeshiftQuery q (some us) (some ue) (some off)).lookup "start" = some [us] ∧
    (applyTimeshiftQuery q (some us) (some ue) (some off)).lookup "utc_end" = some [ue] ∧
    (applyTimeshiftQuery q (some us) (some ue) (some off)).lookup "end" = some [ue] ∧
    (applyTimeshiftQuery q (some us) (some ue) (some off)).lookup "offset" = some [toString n] ∧
    (applyTimeshiftQuery q (some us) (some ue) (some off)).lookup "seek" = some [toString n] ∧
    (applyTimeshiftQuery q (some us) (some ue) (some off)).lookup "t" = some [toString n] := by
  have htu : truthy (some us) = true := truthy_some_of_ne us hus
  have hte : truthy (some ue) = true := truthy_some_of_ne ue hue
  have hto : truthy (some off) = true := truthy_some_of_ne off hoff
  have hres : applyTimeshiftQuery q (some us) (some ue) (some off) =
      dictSet (dictSet (dictSet
        (dictSet (dictSet
          (dictSet (dictSet q "utc_start" [us]) "start" [us])
          "utc_end" [ue]) "end" [ue])
        "offset" [toString n]) "seek" [toString n]) "t" [toString n] := by
    unfold applyTimeshiftQuery
    rw [htu, hte, hto]
    simp only [Bool.true_or, Bool.not_true, Bool.false_eq_true, if_false, if_true,
      Option.getD_some, hn]
  rw [hres]
  refine ⟨?_, ?_, ?_, ?_, ?_, ?_, ?_⟩
  · rw [lookup_dictSet_ne _ _ _ _ (by decide), lookup_dictSet_ne _ _ _ _ (by decide),
      lookup_dictSet_ne _ _ _ _ (by decide), lookup_dictSet_ne _ _ _ _ (by decide),
      lookup_dictSet_ne _ _ _ _ (by decide), lookup_dictSet_ne _ _ _ _ (by decide),
      lookup_dictSet_self]
  · rw [lookup_dictSet_ne _ _ _ _ (by decide), lookup_dictSet_ne _ _ _ _ (by decide),
      lookup_dictSet_ne _ _ _ _ (by decide), lookup_dictSet_ne _ _ _ _ (by decide),
      lookup_dictSet_ne _ _ _ _ (by decide), lookup_dictSet_self]
  · rw [lookup_dictSet_ne _ _ _ _ (by decide), lookup_dictSet_ne _ _ _ _ (by decide),
      lookup_dictSet_ne _ _ _ _ (by decide), lookup_dictSet_ne _ _ _ _ (by decide),
      lookup_dictSet_self]
  · rw [lookup_dictSet_ne _ _ _ _ (by decide), lookup_dictSet_ne _ _ _ _ (by decide),
      lookup_dictSet_ne _ _ _ _ (by decide), lookup_dictSet_self]
  · rw [lookup_dictSet_ne _ _ _ _ (by decide), lookup_dictSet_ne _ _ _ _ (by decide),
      lookup_dictSet_self]
  · rw [lookup_dictSet_ne _ _ _ _ (by decide), lookup_dictSet_self]
  · rw [lookup_dictSet_self]

theorem c9_timeshift_aliases_witness :
    "2023-01-01T12:00:00Z" ≠ "" ∧ "2023-01-01T13:00:00Z" ≠ "" ∧ "30" ≠ "" ∧
    pyInt? "30" = some 30 ∧
    ((applyTimeshiftQuery [("token", ["abc"])] (some "2023-01-01T12:00:00Z")
        (some "2023-01-01T13:00:00Z") (some "30")).lookup "utc_start" =
      some ["2023-01-01T12:00:00Z"] ∧
    (applyTimeshiftQuery [("token", ["abc"])] (some "2023-01-01T12:00:00Z")
        (some "2023-01-01T13:00:00Z") (some "30")).lookup "start" =
      some ["2023-01-01T12:00:00Z"] ∧
    (applyTimeshiftQuery [("token", ["abc"])] (some "2023-01-01T12:00:00Z")
        (some "2023-01-01T13:00:00Z") (some "30")).lookup "utc_end" =
      some ["2023-01-01T13:00:00Z"] ∧
    (applyTimeshiftQuery [("token", ["abc"])] (some "2023-01-01T12:00:00Z")
        (some "2023-01-01T13:00:00Z") (some "30")).lookup "end" =
      some ["2023-01-01T13:00:00Z"] ∧
    (applyTimeshiftQuery [("token", ["abc"])] (some "2023-01-01T12:00:00Z")
        (some "2023-01-01T13:00:00Z") (some "30")).lookup "offset" =
      some [toString (30 : Int)] ∧
    (applyTimeshiftQuery [("token", ["abc"])] (some "2023-01-01T12:00:00Z")
        (some "2023-01-01T13:00:00Z") (some "30")).lookup "seek" =
      some [toString (30 : Int)] ∧
    (applyTimeshiftQuery [("token", ["abc"])] (some "2023-01-01T12:00:00Z")
        (some "2023-01-01T13:00:00Z") (some "30")).lookup "t" =
      some [toString (30 : Int)]) :=
  ⟨by decide, by decide, by decide, by decide,
    c9_timeshift_aliases [("token", ["abc"])] "2023-01-01T12:00:00Z"
      "2023-01-01T13:00:00Z" "30" 30 (by decide) (by decide) (by decide) (by decide)⟩

/-- C10: the per-session `active_streams` counter never becomes negative:
decrementing leaves a zero count untouched and decrements a positive count
by one, so any sequence of increment/decrement calls preserves
`active_streams ≥ 0`. -/
theorem c10_active_streams_nonneg (s : ConnectionState) (ops : List StreamOp)
    (h : 0 ≤ s.active_streams) :
    0 ≤ (applyStreamOps s ops).active_streams ∧
    (∀ now, s.active_streams = 0 → decrementActiveStreams s now = s) ∧
    (∀ now, 0 < s.active_streams →
      (decrementActiveStreams s now).active_streams = s.active_streams - 1) := by
  refine ⟨?_, ?_, ?_⟩
  · induction ops generalizing s with
    | nil => simpa [applyStreamOps] using h
    | cons op ops ih =>
      unfold applyStreamOps
      exact ih _ (applyStreamOp_nonneg s op h)
  · intro now h0
    unfold decrementActiveStreams
    simp [h0]
  · intro now hpos
    unfold decrementActiveStreams
    simp [hpos]

theorem c10_active_streams_nonneg_witness :
    (0 : Int) ≤ (ConnectionState.new "s9" "http://up/x" [] none 0).active_streams ∧
    (0 ≤ (applyStreamOps (ConnectionState.new "s9" "http://up/x" [] none 0)
        [StreamOp.inc 1, StreamOp.dec 2, StreamOp.dec 3]).active_streams ∧
    (∀ now, (ConnectionState.new "s9" "http://up/x" [] none 0).active_streams = 0 →
      decrementActiveStreams (ConnectionState.new "s9" "http://up/x" [] none 0) now =
        ConnectionState.new "s9" "http://up/x" [] none 0) ∧
    (∀ now, 0 < (ConnectionState.new "s9" "http://up/x" [] none 0).active_streams →
      (decrementActiveStreams (ConnectionState.new "s9" "http://up/x" [] none 0)
          now).active_streams =
        (ConnectionState.new "s9" "http://up/x" [] none 0).active_streams - 1)) :=
  ⟨by decide, c10_active_streams_nonneg (ConnectionState.new "s9" "http://up/x" [] none 0)
    [StreamOp.inc 1, StreamOp.dec 2, StreamOp.dec 3] (by decide)⟩

end VODProxy
